import Mathlib

/-!
Verification of the paidmada payment-gateway core against its specification.

The development shallowly embeds the pure, decision-making parts of the
TypeScript source:
* the Phone Classifier (`src/utils/phone.ts`): `normalizePhone`, `validatePhone`
  and the static `PHONE_PREFIXES` table (`src/types/index.ts`);
* the per-adapter Status Normalizers (`mapStatus` in `src/providers/mvola.ts`,
  `src/providers/orange-money.ts`, `src/providers/airtel-money.ts`);
* the Orchestrator's routing and callback-status mapping
  (`PaidMada.pay`, `mapMVolaStatus`, `mapOrangeStatus`, `mapAirtelStatus`
  in `src/paidmada.ts`);
* the base token cache (`isTokenValid`, `getValidToken` in
  `src/providers/base.ts`);
* the simulated adapter's status decision and response construction
  (`src/providers/mock.ts`) and the pure response-construction step of the
  real adapters' `initiatePayment`.

JavaScript strings are modelled as Lean `String`s (a `List Char` underneath);
`string.replace(/\D/g, '')` is `List.filter Char.isDigit`, `slice`/`startsWith`
are `List.take`/equality on the prefix, and object-literal lookup tables are
if-chains on decidable string equality.  Effectful methods are embedded as
pure functions of their inputs (the upstream reply, the random draw, the
current clock value), returning the value the method would produce; thrown
`PaymentError`s become explicit error constructors.
-/

/-- Closed network enumeration, `enum Provider` in `src/types/index.ts`. -/
inductive Provider where
  | mvola
  | orange_money
  | airtel_money
deriving DecidableEq

/-- String value of each enum member (`Provider.MVOLA = 'mvola'`, ...). -/
def Provider.enumValue : Provider → String
  | .mvola => "mvola"
  | .orange_money => "orange_money"
  | .airtel_money => "airtel_money"

/-- Closed five-state unified status model, `enum TransactionStatus`. -/
inductive TransactionStatus where
  | pending
  | success
  | failed
  | expired
  | cancelled
deriving DecidableEq

/-- Result shape of `validatePhone` (`interface PhoneValidation`). -/
structure PhoneValidation where
  isValid : Bool
  provider : Option Provider := none
  normalizedNumber : Option String := none
  error : Option String := none
deriving DecidableEq

/-- Static table `PHONE_PREFIXES` from `src/types/index.ts`: each network's
fixed set of owned 3-digit prefixes, in object-literal order. -/
def PHONE_PREFIXES : List (Provider × List String) :=
  [(.mvola, ["034", "038"]),
   (.orange_money, ["032", "037"]),
   (.airtel_money, ["033"])]

/-- The two sequential fix-ups `normalizePhone` applies after stripping
non-digits: replace a leading `261` of a 12-digit string by `0`, then
prepend `0` to a 9-digit string lacking it (`cleaned.startsWith('261')` is
`take 3 = ['2','6','1']`, `!cleaned.startsWith('0')` is `take 1 ≠ ['0']`). -/
def phoneFixup (cleaned : List Char) : List Char :=
  let step1 :=
    if cleaned.take 3 = ['2', '6', '1'] ∧ cleaned.length = 12 then
      '0' :: cleaned.drop 3
    else cleaned
  if step1.length = 9 ∧ step1.take 1 ≠ ['0'] then '0' :: step1 else step1

/-- List-level body of `normalizePhone` from `src/utils/phone.ts`:
strip non-digits (`phone.replace(/\D/g, '')`), then fix the prefix up. -/
def normalizePhoneL (l : List Char) : List Char :=
  phoneFixup (l.filter Char.isDigit)

/-- `normalizePhone` from `src/utils/phone.ts`. -/
def normalizePhone (phone : String) : String :=
  ⟨normalizePhoneL phone.data⟩

/-- `validatePhone` from `src/utils/phone.ts`: normalize, check length 10,
check leading `03`, look the 3-character prefix up in `PHONE_PREFIXES`
(first matching entry, as the `for ... of Object.entries` loop does). -/
def validatePhone (phone : String) : PhoneValidation :=
  let normalized := normalizePhone phone
  if normalized.data.length ≠ 10 then
    { isValid := false, error := some "Le numéro doit contenir 10 chiffres" }
  else if normalized.data.take 2 ≠ ['0', '3'] then
    { isValid := false, error := some "Le numéro doit commencer par 03x" }
  else
    let pfx : String := ⟨normalized.data.take 3⟩
    match PHONE_PREFIXES.find? (fun e => e.2.contains pfx) with
    | some e =>
        { isValid := true, provider := some e.1, normalizedNumber := some normalized }
    | none =>
        { isValid := false, normalizedNumber := some normalized,
          error := some ("Préfixe " ++ pfx ++ " non reconnu") }

example : normalizePhone "034 12 345 67" = "0341234567" := by decide
example : normalizePhone "261341234567" = "0341234567" := by decide
example : normalizePhone "341234567" = "0341234567" := by decide
example : (validatePhone "0341234567").isValid = true := by decide
example : (validatePhone "0301234567").isValid = false := by decide

/-!
Status Normalizers.  Each adapter's private `mapStatus` is an object-literal
lookup followed by `|| TransactionStatus.PENDING`; a missing/undefined native
status is modelled as `none` (`status?.toLowerCase()` of `undefined` is
`undefined`, which hits no key).  The lookup is embedded as an if-chain over
the literal's keys in source order.  In the TypeScript source the lowercased
(resp. uppercased) string is computed once; repeating the conversion in each
branch below is semantically identical.
-/

/-- JavaScript `String.prototype.toLowerCase`, character by character
(all native status tokens are ASCII). -/
def jsToLowerCase (s : String) : String :=
  ⟨s.data.map Char.toLower⟩

/-- JavaScript `String.prototype.toUpperCase`, character by character. -/
def jsToUpperCase (s : String) : String :=
  ⟨s.data.map Char.toUpper⟩

namespace MVolaProvider

/-- `MVolaProvider.mapStatus` from `src/providers/mvola.ts`: lowercase the
native status and look it up; any miss (including no status) yields pending. -/
def mapStatus (status : Option String) : TransactionStatus :=
  match status with
  | none => .pending
  | some s =>
    if jsToLowerCase s = "pending" then .pending
    else if jsToLowerCase s = "success" then .success
    else if jsToLowerCase s = "completed" then .success
    else if jsToLowerCase s = "failed" then .failed
    else if jsToLowerCase s = "rejected" then .failed
    else if jsToLowerCase s = "expired" then .expired
    else if jsToLowerCase s = "cancelled" then .cancelled
    else .pending

end MVolaProvider

namespace OrangeMoneyProvider

/-- `OrangeMoneyProvider.mapStatus` from `src/providers/orange-money.ts`:
uppercase the native status and look it up; any miss yields pending. -/
def mapStatus (status : Option String) : TransactionStatus :=
  match status with
  | none => .pending
  | some s =>
    if jsToUpperCase s = "INITIATED" then .pending
    else if jsToUpperCase s = "PENDING" then .pending
    else if jsToUpperCase s = "SUCCESS" then .success
    else if jsToUpperCase s = "FAILED" then .failed
    else if jsToUpperCase s = "EXPIRED" then .expired
    else .pending

end OrangeMoneyProvider

namespace AirtelMoneyProvider

/-- One lookup in the `statusMap` object literal of
`AirtelMoneyProvider.mapStatus` (`src/providers/airtel-money.ts`). -/
def statusMapLookup (s : String) : Option TransactionStatus :=
  if s = "DP00800001001" then some .success
  else if s = "TS" then some .success
  else if s = "TIP" then some .pending
  else if s = "TF" then some .failed
  else if s = "pending" then some .pending
  else if s = "success" then some .success
  else if s = "successful" then some .success
  else if s = "failed" then some .failed
  else if s = "expired" then some .expired
  else none

/-- `AirtelMoneyProvider.mapStatus`:
`statusMap[status] || statusMap[status?.toLowerCase()] || PENDING`. -/
def mapStatus (status : Option String) : TransactionStatus :=
  match status with
  | none => .pending
  | some s =>
    match statusMapLookup s with
    | some st => st
    | none =>
      match statusMapLookup (jsToLowerCase s) with
      | some st => st
      | none => .pending

end AirtelMoneyProvider

namespace PaidMada

/-- `PaidMada.mapMVolaStatus` from `src/paidmada.ts` (callback parsing):
a four-entry lowercased lookup defaulting to pending. -/
def mapMVolaStatus (status : Option String) : TransactionStatus :=
  match status with
  | none => .pending
  | some s =>
    if jsToLowerCase s = "success" then .success
    else if jsToLowerCase s = "completed" then .success
    else if jsToLowerCase s = "pending" then .pending
    else if jsToLowerCase s = "failed" then .failed
    else .pending

/-- `PaidMada.mapOrangeStatus` from `src/paidmada.ts` (callback parsing). -/
def mapOrangeStatus (status : Option String) : TransactionStatus :=
  match status with
  | none => .pending
  | some s =>
    if jsToUpperCase s = "SUCCESS" then .success
    else if jsToUpperCase s = "PENDING" then .pending
    else if jsToUpperCase s = "FAILED" then .failed
    else if jsToUpperCase s = "EXPIRED" then .expired
    else .pending

/-- `PaidMada.mapAirtelStatus` from `src/paidmada.ts` (callback parsing):
exact (case-sensitive) comparisons, defaulting to pending. -/
def mapAirtelStatus (status : Option String) : TransactionStatus :=
  match status with
  | none => .pending
  | some s =>
    if s = "TS" ∨ s = "successful" ∨ s = "success" then .success
    else if s = "TIP" ∨ s = "pending" then .pending
    else if s = "TF" ∨ s = "failed" then .failed
    else .pending

end PaidMada

example : MVolaProvider.mapStatus (some "Completed") = .success := by decide
example : MVolaProvider.mapStatus (some "weird") = .pending := by decide
example : AirtelMoneyProvider.mapStatus (some "DP00800001001") = .success := by decide
example : AirtelMoneyProvider.mapStatus (some "SUCCESS") = .success := by decide
example : PaidMada.mapAirtelStatus (some "SUCCESS") = .pending := by decide

/-!
Orchestrator routing (`PaidMada.pay`, `PaidMada.detectProvider` in
`src/paidmada.ts`).  The adapter map is modelled as the list of configured
networks; the three `throw new PaymentError(...)` sites become explicit
error outcomes carrying the message, code and optional provider of the
thrown error.  `pay` is pure up to the final delegation, which the model
returns as an outcome carrying the adapter's network and the exact request
object handed over — so the error outcomes by construction involve no
adapter operation and no state change.
-/

/-- `interface PaymentRequest` (`src/types/index.ts`); `provider` is modelled
as optional because `pay` treats a missing/falsy provider as unset. -/
structure PaymentRequest where
  provider : Option Provider
  amount : Int
  currency : Option String := none
  customerPhone : String
  description : Option String := none
  reference : Option String := none
  metadata : List (String × String) := []
  callbackUrl : Option String := none
deriving DecidableEq

/-- Outcome of a `PaidMada.pay` call: one of the three thrown
`PaymentError (message, code, provider?)`s, or delegation to the resolved
adapter's `initiatePayment` with the request it receives. -/
inductive PayOutcome where
  | err (message : String) (code : String) (provider : Option Provider)
  | delegate (provider : Provider) (request : PaymentRequest)
deriving DecidableEq

namespace PaidMada

/-- `PaidMada.detectProvider`: classify the phone, return the owning network
only on a valid classification. -/
def detectProvider (phone : String) : Option Provider :=
  let validation := validatePhone phone
  if validation.isValid then validation.provider else none

/-- Continuation of `PaidMada.pay` after the provider is resolved:
validate the phone, check the adapter map, delegate with
`{ ...request, provider }`. -/
def payResolved (configured : List Provider) (request : PaymentRequest)
    (provider : Provider) : PayOutcome :=
  let phoneValidation := validatePhone request.customerPhone
  if phoneValidation.isValid = false then
    .err (phoneValidation.error.getD "Numéro de téléphone invalide") "INVALID_PHONE" none
  else if configured.contains provider then
    .delegate provider { request with provider := some provider }
  else
    .err ("Provider " ++ provider.enumValue ++ " non configuré")
      "PROVIDER_NOT_CONFIGURED" (some provider)

/-- `PaidMada.pay` from `src/paidmada.ts`: auto-detect the provider when the
request carries none (throwing `PROVIDER_DETECTION_FAILED` on no match),
then validate and delegate via `payResolved`. -/
def pay (configured : List Provider) (request : PaymentRequest) : PayOutcome :=
  match request.provider with
  | none =>
    match detectProvider request.customerPhone with
    | none =>
        .err "Impossible de détecter le provider depuis le numéro"
          "PROVIDER_DETECTION_FAILED" none
    | some detected => payResolved configured request detected
  | some p => payResolved configured request p

/-- The provider `pay` resolves for a request: the explicit one if present,
otherwise the auto-detected one. -/
def resolvedProvider (request : PaymentRequest) : Option Provider :=
  match request.provider with
  | some p => some p
  | none => detectProvider request.customerPhone

end PaidMada

/-!
Token cache of the shared base adapter (`src/providers/base.ts`).
`getValidToken` is embedded as a function of the cached token, the current
clock value (milliseconds, as `Date.now()`), and the token the adapter-specific
`authenticate()` would leave in the cache if invoked; the result records
whether `authenticate()` was invoked and the returned access token or the
thrown `AUTH_FAILED` error.
-/

/-- `interface AuthToken` (`src/types/index.ts`), times in milliseconds. -/
structure AuthToken where
  accessToken : String
  tokenType : String
  expiresIn : Int
  expiresAt : Int
deriving DecidableEq

/-- `BaseProvider.isTokenValid`: a cached token is valid iff it exists and
`Date.now() < expiresAt - 60000` (60-second safety margin, strict). -/
def isTokenValid (token : Option AuthToken) (now : Int) : Bool :=
  match token with
  | none => false
  | some t => decide (now < t.expiresAt - 60000)

/-- Result of a `BaseProvider.getValidToken` call. -/
structure GetValidTokenResult where
  authenticateCalled : Bool
  outcome : Except String String

/-- `BaseProvider.getValidToken`: authenticate when the cached token fails
the validity check, then throw `AUTH_FAILED` if the cache is still empty,
else return the cached access token. -/
def getValidToken (token : Option AuthToken) (now : Int)
    (tokenAfterAuthenticate : Option AuthToken) : GetValidTokenResult :=
  let authenticateCalled := !isTokenValid token now
  let tokenAfter := if authenticateCalled then tokenAfterAuthenticate else token
  { authenticateCalled
    outcome :=
      match tokenAfter with
      | none => .error "AUTH_FAILED"
      | some t => .ok t.accessToken }

/-!
Response construction.  For each adapter, the step of `initiatePayment` that
turns the upstream reply into the returned `PaymentResponse` is embedded as a
pure function of the reply's relevant fields.
-/

/-- `interface PaymentResponse` (`src/types/index.ts`); `rawResponse` is
omitted (it is the untyped upstream payload passed through unchanged). -/
structure PaymentResponse where
  success : Bool
  provider : Provider
  transactionId : String
  serverCorrelationId : Option String := none
  status : TransactionStatus
  paymentUrl : Option String := none
  message : Option String := none
deriving DecidableEq

namespace MVolaProvider

/-- Response step of `MVolaProvider.initiatePayment` (`src/providers/mvola.ts`,
lines 128-138): normalize the upstream status, set `success` iff the unified
status is pending or success. -/
def buildPaymentResponse (upstreamStatus : Option String)
    (serverCorrelationId : Option String) (reference : String) : PaymentResponse :=
  let status := mapStatus upstreamStatus
  { success := status = TransactionStatus.pending ∨ status = TransactionStatus.success
    provider := .mvola
    transactionId := reference
    serverCorrelationId
    status
    message := upstreamStatus }

end MVolaProvider

namespace OrangeMoneyProvider

/-- Response step of `OrangeMoneyProvider.initiatePayment`
(`src/providers/orange-money.ts`, lines 110-121): `success` iff the reply's
`status` is `201` or its `message` is `'OK'`; the unified status is then
pending on success and failed otherwise. -/
def buildPaymentResponse (replyStatus : Option Int) (replyMessage : Option String)
    (payToken paymentUrl : Option String) (reference : String) : PaymentResponse :=
  let success : Bool := replyStatus = some 201 ∨ replyMessage = some "OK"
  { success
    provider := .orange_money
    transactionId := reference
    serverCorrelationId := payToken
    status := if success then .pending else .failed
    paymentUrl
    message := replyMessage }

end OrangeMoneyProvider

/-!
Simulated adapter (`src/providers/mock.ts`).  `Math.random()` is a rational
draw in `[0, 1)`; `shouldSucceed` and the initial status decided by
`initiatePayment` are functions of that draw and the configuration.
-/

namespace MockProvider

/-- `MockProvider.shouldSucceed`: `Math.random() * 100 < this.successRate`. -/
def shouldSucceed (draw successRate : ℚ) : Bool :=
  decide (draw * 100 < successRate)

/-- Initial status decided by `MockProvider.initiatePayment`: pending when
`simulatePending`, otherwise success or failed by the weighted draw. -/
def initialStatus (simulatePending : Bool) (draw successRate : ℚ) : TransactionStatus :=
  if simulatePending then .pending
  else if shouldSucceed draw successRate then .success else .failed

/-- `MockProvider.getStatusMessage` (`src/providers/mock.ts`). -/
def getStatusMessage : TransactionStatus → String
  | .pending => "Transaction en attente de confirmation"
  | .success => "Transaction réussie"
  | .failed => "Transaction échouée"
  | .expired => "Transaction expirée"
  | .cancelled => "Transaction annulée"

/-- The `PaymentResponse` built by `MockProvider.initiatePayment`
(`src/providers/mock.ts`, lines 96-113): the `success` flag is the literal
`true`, independent of the decided status; Orange Money mocks additionally
get a synthetic redirect URL. -/
def initiatePaymentResponse (provider : Provider) (simulatePending : Bool)
    (draw successRate : ℚ) (transactionId serverCorrelationId : String) :
    PaymentResponse :=
  let status := initialStatus simulatePending draw successRate
  { success := true
    provider
    transactionId
    serverCorrelationId := some serverCorrelationId
    status
    message := some (getStatusMessage status)
    paymentUrl :=
      if provider = Provider.orange_money then
        some ("https://mock.orange.com/pay/" ++ transactionId)
      else none }

end MockProvider

/-!
Theorems.
-/

/-- Keys of the MVola adapter's `statusMap` object literal. -/
def mvolaKnownTokens : List String :=
  ["pending", "success", "completed", "failed", "rejected", "expired", "cancelled"]

/-- Keys of the Orange Money adapter's `statusMap` object literal. -/
def orangeKnownTokens : List String :=
  ["INITIATED", "PENDING", "SUCCESS", "FAILED", "EXPIRED"]

/-- Keys of the Airtel Money adapter's `statusMap` object literal. -/
def airtelKnownTokens : List String :=
  ["DP00800001001", "TS", "TIP", "TF", "pending", "success", "successful", "failed", "expired"]

/-- The Airtel lookup misses every key outside `airtelKnownTokens`. -/
theorem airtel_lookup_eq_none {s : String} (h : s ∉ airtelKnownTokens) :
    AirtelMoneyProvider.statusMapLookup s = none := by
  simp only [airtelKnownTokens, List.mem_cons, List.mem_singleton, not_or] at h
  obtain ⟨h1, h2, h3, h4, h5, h6, h7, h8, h9, -⟩ := h
  simp [AirtelMoneyProvider.statusMapLookup, h1, h2, h3, h4, h5, h6, h7, h8, h9]

/-- C1: each adapter's status normalizer sends every native status outside its
own key set — a missing/undefined status included — to the unified status
`pending`.  The embedded `mapStatus` functions are total Lean functions, so
no error can be raised on any input. -/
theorem unknown_native_status_normalizes_to_pending (s : String) :
    (jsToLowerCase s ∉ mvolaKnownTokens →
      MVolaProvider.mapStatus (some s) = .pending)
    ∧ (jsToUpperCase s ∉ orangeKnownTokens →
      OrangeMoneyProvider.mapStatus (some s) = .pending)
    ∧ (s ∉ airtelKnownTokens → jsToLowerCase s ∉ airtelKnownTokens →
      AirtelMoneyProvider.mapStatus (some s) = .pending)
    ∧ MVolaProvider.mapStatus none = .pending
    ∧ OrangeMoneyProvider.mapStatus none = .pending
    ∧ AirtelMoneyProvider.mapStatus none = .pending := by
  refine ⟨?_, ?_, ?_, rfl, rfl, rfl⟩
  · intro h
    simp only [mvolaKnownTokens, List.mem_cons, List.mem_singleton, not_or] at h
    obtain ⟨h1, h2, h3, h4, h5, h6, h7, -⟩ := h
    simp [MVolaProvider.mapStatus, h1, h2, h3, h4, h5, h6, h7]
  · intro h
    simp only [orangeKnownTokens, List.mem_cons, List.mem_singleton, not_or] at h
    obtain ⟨h1, h2, h3, h4, h5, -⟩ := h
    simp [OrangeMoneyProvider.mapStatus, h1, h2, h3, h4, h5]
  · intro hexact hlower
    simp [AirtelMoneyProvider.mapStatus, airtel_lookup_eq_none hexact,
      airtel_lookup_eq_none hlower]

/-- Witness for C1 at the unmapped native status `"timeout"`. -/
theorem unknown_native_status_normalizes_to_pending_witness :
    MVolaProvider.mapStatus (some "timeout") = .pending
    ∧ OrangeMoneyProvider.mapStatus (some "timeout") = .pending
    ∧ AirtelMoneyProvider.mapStatus (some "timeout") = .pending :=
  ⟨(unknown_native_status_normalizes_to_pending "timeout").1 (by decide),
   (unknown_native_status_normalizes_to_pending "timeout").2.1 (by decide),
   (unknown_native_status_normalizes_to_pending "timeout").2.2.1 (by decide) (by decide)⟩

/-- C4 counterexample: on the native MVola status `"rejected"`, the adapter's
normalizer yields `failed` while the Orchestrator's `parseCallback` mapping
(`mapMVolaStatus`) yields `pending`; likewise on the native Airtel status
`"DP00800001001"` the adapter yields `success` while `mapAirtelStatus` yields
`pending` — for those two networks the mappings are not the same function. -/
theorem parseCallback_status_differs_from_adapter :
    (PaidMada.mapMVolaStatus (some "rejected") = .pending
      ∧ MVolaProvider.mapStatus (some "rejected") = .failed
      ∧ PaidMada.mapMVolaStatus (some "rejected") ≠
          MVolaProvider.mapStatus (some "rejected"))
    ∧ (PaidMada.mapAirtelStatus (some "DP00800001001") = .pending
      ∧ AirtelMoneyProvider.mapStatus (some "DP00800001001") = .success
      ∧ PaidMada.mapAirtelStatus (some "DP00800001001") ≠
          AirtelMoneyProvider.mapStatus (some "DP00800001001")) := by
  decide

/-- C4 as amended: the Orange Money callback mapping is extensionally equal to
the Orange adapter's normalizer; for MVola and Airtel Money the two mappings
are not the same function — they differ at `"rejected"` resp.
`"DP00800001001"` — but on every native status the callback mapping either
agrees with the adapter's normalizer or returns `pending` (its lookup table
being a strict subset of the adapter's). -/
theorem parseCallback_status_vs_adapter_amended :
    (∀ s : Option String,
      PaidMada.mapOrangeStatus s = OrangeMoneyProvider.mapStatus s
      ∧ (PaidMada.mapMVolaStatus s = MVolaProvider.mapStatus s
          ∨ PaidMada.mapMVolaStatus s = .pending)
      ∧ (PaidMada.mapAirtelStatus s = AirtelMoneyProvider.mapStatus s
          ∨ PaidMada.mapAirtelStatus s = .pending))
    ∧ PaidMada.mapMVolaStatus (some "rejected") ≠
        MVolaProvider.mapStatus (some "rejected")
    ∧ PaidMada.mapAirtelStatus (some "DP00800001001") ≠
        AirtelMoneyProvider.mapStatus (some "DP00800001001") := by
  refine ⟨fun s => ?_, by decide, by decide⟩
  refine ⟨?_, ?_, ?_⟩
  · cases s with
    | none => rfl
    | some str =>
      simp only [PaidMada.mapOrangeStatus, OrangeMoneyProvider.mapStatus]
      split_ifs <;> simp_all
  · cases s with
    | none => left; rfl
    | some str =>
      by_cases h1 : jsToLowerCase str = "success"
      · left; simp [PaidMada.mapMVolaStatus, MVolaProvider.mapStatus, h1]
      · by_cases h2 : jsToLowerCase str = "completed"
        · left; simp [PaidMada.mapMVolaStatus, MVolaProvider.mapStatus, h1, h2]
        · by_cases h3 : jsToLowerCase str = "pending"
          · left; simp [PaidMada.mapMVolaStatus, MVolaProvider.mapStatus, h1, h2, h3]
          · by_cases h4 : jsToLowerCase str = "failed"
            · left
              simp [PaidMada.mapMVolaStatus, MVolaProvider.mapStatus, h1, h2, h3, h4]
            · right
              simp [PaidMada.mapMVolaStatus, h1, h2, h3, h4]
  · cases s with
    | none => left; rfl
    | some str =>
      by_cases h1 : str = "TS" ∨ str = "successful" ∨ str = "success"
      · left
        rcases h1 with h | h | h <;> subst h <;> decide
      · by_cases h2 : str = "TIP" ∨ str = "pending"
        · right; simp [PaidMada.mapAirtelStatus, h1, h2]
        · by_cases h3 : str = "TF" ∨ str = "failed"
          · left
            rcases h3 with h | h <;> subst h <;> decide
          · right; simp [PaidMada.mapAirtelStatus, h1, h2, h3]

/-- C5: whenever the Orange Money upstream reply signals that the redirect was
issued (`status === 201` or `message === 'OK'`), the constructed
`PaymentResponse` carries the unified status `pending`, never `success`. -/
theorem orange_redirect_maps_to_pending (replyStatus : Option Int)
    (replyMessage payToken paymentUrl : Option String) (reference : String)
    (h : replyStatus = some 201 ∨ replyMessage = some "OK") :
    (OrangeMoneyProvider.buildPaymentResponse replyStatus replyMessage payToken
        paymentUrl reference).status = .pending
    ∧ (OrangeMoneyProvider.buildPaymentResponse replyStatus replyMessage payToken
        paymentUrl reference).status ≠ .success := by
  rcases h with h | h <;>
    subst h <;> simp [OrangeMoneyProvider.buildPaymentResponse]

/-- Witness for C5 at a concrete `201`/`'OK'` reply. -/
theorem orange_redirect_maps_to_pending_witness :
    (OrangeMoneyProvider.buildPaymentResponse (some 201) (some "OK")
        (some "tok") (some "https://pay") "OM-1").status = .pending
    ∧ (OrangeMoneyProvider.buildPaymentResponse (some 201) (some "OK")
        (some "tok") (some "https://pay") "OM-1").status ≠ .success :=
  orange_redirect_maps_to_pending (some 201) (some "OK") (some "tok")
    (some "https://pay") "OM-1" (Or.inl rfl)

/-- C6: a cached token is valid exactly when the clock is strictly below its
expiry minus 60 seconds; `getValidToken` invokes `authenticate()` precisely
when that check fails, throws `AUTH_FAILED` when the cache is still empty
afterwards, and otherwise proceeds with the (possibly refreshed) token. -/
theorem token_cache_validity_and_refresh (token : Option AuthToken) (now : Int)
    (tokenAfterAuthenticate : Option AuthToken) :
    (isTokenValid token now = true ↔
      ∃ t, token = some t ∧ now < t.expiresAt - 60000)
    ∧ (getValidToken token now tokenAfterAuthenticate).authenticateCalled
        = !isTokenValid token now
    ∧ (isTokenValid token now = false → tokenAfterAuthenticate = none →
      (getValidToken token now tokenAfterAuthenticate).outcome = .error "AUTH_FAILED")
    ∧ (isTokenValid token now = false → ∀ t, tokenAfterAuthenticate = some t →
      (getValidToken token now tokenAfterAuthenticate).outcome = .ok t.accessToken)
    ∧ (isTokenValid token now = true → ∀ t, token = some t →
      (getValidToken token now tokenAfterAuthenticate).outcome = .ok t.accessToken) := by
  refine ⟨?_, ?_, ?_, ?_, ?_⟩
  · cases token with
    | none => simp [isTokenValid]
    | some t => simp [isTokenValid]
  · simp [getValidToken]
  · intro hvalid hafter
    simp [getValidToken, hvalid, hafter]
  · intro hvalid t hafter
    simp [getValidToken, hvalid, hafter]
  · intro hvalid t htoken
    subst htoken
    simp [getValidToken, hvalid]

/-- Witness for C6: an empty cache at clock 0 with a failing `authenticate`,
and a fresh token valid until 100000 ms. -/
theorem token_cache_validity_and_refresh_witness :
    (isTokenValid none 0 = false)
    ∧ (getValidToken none 0 none).authenticateCalled = true
    ∧ (getValidToken none 0 none).outcome = .error "AUTH_FAILED"
    ∧ isTokenValid (some ⟨"tok", "Bearer", 3600, 100000⟩) 0 = true
    ∧ (getValidToken (some ⟨"tok", "Bearer", 3600, 100000⟩) 0 none).outcome
        = .ok "tok" :=
  ⟨rfl,
   by rw [(token_cache_validity_and_refresh none 0 none).2.1]; rfl,
   (token_cache_validity_and_refresh none 0 none).2.2.1 rfl rfl,
   ((token_cache_validity_and_refresh (some ⟨"tok", "Bearer", 3600, 100000⟩) 0
        none).1).mpr ⟨_, rfl, by decide⟩,
   (token_cache_validity_and_refresh (some ⟨"tok", "Bearer", 3600, 100000⟩) 0
        none).2.2.2.2 (by decide) _ rfl⟩

/-- C7: the simulated adapter's `initiatePayment` response status is `success`
on every draw at success rate 100 with pending simulation off, `failed` on
every draw at success rate 0, and `pending` on every draw and rate with
pending simulation on. -/
theorem mock_initialStatus_by_configuration (provider : Provider)
    (draw successRate : ℚ) (transactionId serverCorrelationId : String)
    (h0 : 0 ≤ draw) (h1 : draw < 1) :
    (MockProvider.initiatePaymentResponse provider false draw 100
        transactionId serverCorrelationId).status = .success
    ∧ (MockProvider.initiatePaymentResponse provider false draw 0
        transactionId serverCorrelationId).status = .failed
    ∧ (MockProvider.initiatePaymentResponse provider true draw successRate
        transactionId serverCorrelationId).status = .pending := by
  refine ⟨?_, ?_, ?_⟩
  · have hlt : draw * 100 < 100 := by linarith
    simp [MockProvider.initiatePaymentResponse, MockProvider.initialStatus,
      MockProvider.shouldSucceed, hlt]
  · have hge : ¬ draw * 100 < 0 := by nlinarith
    simp [MockProvider.initiatePaymentResponse, MockProvider.initialStatus,
      MockProvider.shouldSucceed, hge]
  · simp [MockProvider.initiatePaymentResponse, MockProvider.initialStatus]

/-- Witness for C7 at the draw 0. -/
theorem mock_initialStatus_by_configuration_witness :
    (MockProvider.initiatePaymentResponse .mvola false 0 100 "T" "C").status
        = .success
    ∧ (MockProvider.initiatePaymentResponse .mvola false 0 0 "T" "C").status
        = .failed
    ∧ (MockProvider.initiatePaymentResponse .mvola true 0 50 "T" "C").status
        = .pending :=
  mock_initialStatus_by_configuration .mvola 0 50 "T" "C"
    (le_refl 0) (by norm_num)

/-- C10: the simulated adapter's `initiatePayment` sets the `success` flag to
the literal `true` for every configuration and draw — even at success rate 0
with pending simulation off, where the decided status is `failed` — whereas
the MVola adapter derives `success` from the normalized status (true exactly
for `pending` and `success`). -/
theorem mock_success_flag_always_true (provider : Provider)
    (simulatePending : Bool) (draw successRate : ℚ)
    (transactionId serverCorrelationId : String) :
    (MockProvider.initiatePaymentResponse provider simulatePending draw
        successRate transactionId serverCorrelationId).success = true
    ∧ (0 ≤ draw →
      (MockProvider.initiatePaymentResponse provider false draw 0
          transactionId serverCorrelationId).status = .failed
      ∧ (MockProvider.initiatePaymentResponse provider false draw 0
          transactionId serverCorrelationId).success = true)
    ∧ (∀ (upstreamStatus correlationId : Option String) (reference : String),
      (MVolaProvider.buildPaymentResponse upstreamStatus correlationId
          reference).success
        = decide (MVolaProvider.mapStatus upstreamStatus = .pending
            ∨ MVolaProvider.mapStatus upstreamStatus = .success)) := by
  refine ⟨rfl, ?_, ?_⟩
  · intro h0
    have hge : ¬ draw * 100 < 0 := by nlinarith
    exact ⟨by simp [MockProvider.initiatePaymentResponse,
        MockProvider.initialStatus, MockProvider.shouldSucceed, hge], rfl⟩
  · intro upstreamStatus correlationId reference
    simp [MVolaProvider.buildPaymentResponse]

/-- Witness for C10 at draw 0, success rate 0, pending simulation off. -/
theorem mock_success_flag_always_true_witness :
    (MockProvider.initiatePaymentResponse .airtel_money false 0 0 "T" "C").success
        = true
    ∧ (MockProvider.initiatePaymentResponse .airtel_money false 0 0 "T" "C").status
        = .failed
    ∧ (MVolaProvider.buildPaymentResponse (some "failed") none "R").success
        = decide (MVolaProvider.mapStatus (some "failed") = .pending
            ∨ MVolaProvider.mapStatus (some "failed") = .success) :=
  ⟨(mock_success_flag_always_true .airtel_money false 0 0 "T" "C").1,
   ((mock_success_flag_always_true .airtel_money false 0 0 "T" "C").2.1
      (le_refl 0)).1,
   (mock_success_flag_always_true .airtel_money false 0 0 "T" "C").2.2
      (some "failed") none "R"⟩

/-- A string the fix-up step leaves ten characters long is a fixed point of
the fix-up: both rewrite conditions require length 12 resp. 9. -/
theorem phoneFixup_of_length_ten {d : List Char} (h : d.length = 10) :
    phoneFixup d = d := by
  simp only [phoneFixup]
  have h1 : ¬(d.take 3 = ['2', '6', '1'] ∧ d.length = 12) := by
    rintro ⟨-, h12⟩; omega
  rw [if_neg h1]
  have h2 : ¬(d.length = 9 ∧ d.take 1 ≠ ['0']) := by
    rintro ⟨h9, -⟩; omega
  rw [if_neg h2]

/-- The fix-up step either produces a ten-character string (after one of its
two rewrites fired) or leaves its input unchanged. -/
theorem phoneFixup_cases (c : List Char) :
    (phoneFixup c).length = 10 ∨ phoneFixup c = c := by
  simp only [phoneFixup]
  by_cases h1 : c.take 3 = ['2', '6', '1'] ∧ c.length = 12
  · left
    rw [if_pos h1]
    have hl : ('0' :: c.drop 3).length = 10 := by simp [h1.2]
    rw [if_neg (by simp [hl])]
    exact hl
  · rw [if_neg h1]
    by_cases h2 : c.length = 9 ∧ c.take 1 ≠ ['0']
    · left; rw [if_pos h2]; simp [h2.1]
    · right; rw [if_neg h2]

/-- The fix-up step is idempotent on arbitrary character lists. -/
theorem phoneFixup_idem (c : List Char) :
    phoneFixup (phoneFixup c) = phoneFixup c := by
  rcases phoneFixup_cases c with h | h
  · exact phoneFixup_of_length_ten h
  · rw [h]; exact h

/-- The fix-up step only prepends the digit `0` or drops a prefix, so it maps
digit-only strings to digit-only strings. -/
theorem phoneFixup_digits {c : List Char} (h : ∀ a ∈ c, a.isDigit) :
    ∀ a ∈ phoneFixup c, a.isDigit := by
  have h0 : ('0' : Char).isDigit := by decide
  have hdrop : ∀ b ∈ c.drop 3, b.isDigit := fun b hb => h b (List.drop_subset 3 c hb)
  intro a ha
  simp only [phoneFixup] at ha
  split_ifs at ha
  · rcases List.mem_cons.mp ha with rfl | ha'
    · exact h0
    · rcases List.mem_cons.mp ha' with rfl | ha''
      · exact h0
      · exact hdrop a ha''
  · rcases List.mem_cons.mp ha with rfl | ha'
    · exact h0
    · exact hdrop a ha'
  · rcases List.mem_cons.mp ha with rfl | ha'
    · exact h0
    · exact h a ha'
  · exact h a ha

/-- C8: `normalizePhone` is idempotent — normalizing an already-normalized
phone string changes nothing, for every input string. -/
theorem normalizePhone_idempotent (x : String) :
    normalizePhone (normalizePhone x) = normalizePhone x := by
  have key : normalizePhoneL (normalizePhoneL x.data) = normalizePhoneL x.data := by
    unfold normalizePhoneL
    rw [List.filter_eq_self.mpr
      (phoneFixup_digits (fun a ha => (List.mem_filter.mp ha).2))]
    exact phoneFixup_idem _
  show String.mk (normalizePhoneL (normalizePhoneL x.data))
      = String.mk (normalizePhoneL x.data)
  exact congrArg String.mk key

/-- Evaluation of `validatePhone` when both structural checks pass and the
3-character prefix hits a table entry found by the linear scan. -/
theorem validatePhone_of_find_hit {s : String} {pfxStr : String}
    {entry : Provider × List String}
    (hlen : (normalizePhone s).data.length = 10)
    (h2 : (normalizePhone s).data.take 2 = ['0', '3'])
    (hv : (⟨(normalizePhone s).data.take 3⟩ : String) = pfxStr)
    (hf : PHONE_PREFIXES.find? (fun e => e.2.contains pfxStr) = some entry) :
    validatePhone s =
      { isValid := true, provider := some entry.1,
        normalizedNumber := some (normalizePhone s) } := by
  simp only [validatePhone]
  rw [if_neg (by simp [hlen]), if_neg (by simp [h2]), hv, hf]

/-- C2: on an input whose normalized form has exactly 10 digits, if the
3-character prefix belongs to a network's set in `PHONE_PREFIXES`,
`validatePhone` accepts with that owning network and the normalized number;
if the normalized form starts with `03` but the prefix is in none of the
table's sets, `validatePhone` rejects with the `Préfixe ... non reconnu`
reason while still returning the normalized number. -/
theorem validatePhone_prefix_table (s : String) :
    (∀ e, e ∈ PHONE_PREFIXES →
      (⟨(normalizePhone s).data.take 3⟩ : String) ∈ e.2 →
      (normalizePhone s).data.length = 10 →
      validatePhone s =
        { isValid := true, provider := some e.1,
          normalizedNumber := some (normalizePhone s) })
    ∧ ((normalizePhone s).data.length = 10 →
      (normalizePhone s).data.take 2 = ['0', '3'] →
      (∀ e ∈ PHONE_PREFIXES, (⟨(normalizePhone s).data.take 3⟩ : String) ∉ e.2) →
      validatePhone s =
        { isValid := false,
          normalizedNumber := some (normalizePhone s),
          error := some ("Préfixe " ++ (⟨(normalizePhone s).data.take 3⟩ : String)
            ++ " non reconnu") }) := by
  constructor
  · intro e hmem hpfx hlen
    simp only [PHONE_PREFIXES, List.mem_cons, List.not_mem_nil, or_false] at hmem
    rcases hmem with rfl | rfl | rfl <;>
      simp only [List.mem_cons, List.not_mem_nil, or_false] at hpfx
    · rcases hpfx with hv | hv <;>
      · have h3 := congrArg String.data hv
        have h2 : (normalizePhone s).data.take 2 = ['0', '3'] := by
          have := congrArg (List.take 2) h3
          simpa [List.take_take] using this
        exact validatePhone_of_find_hit hlen h2 hv (by decide)
    · rcases hpfx with hv | hv <;>
      · have h3 := congrArg String.data hv
        have h2 : (normalizePhone s).data.take 2 = ['0', '3'] := by
          have := congrArg (List.take 2) h3
          simpa [List.take_take] using this
        exact validatePhone_of_find_hit hlen h2 hv (by decide)
    · have h3 := congrArg String.data hpfx
      have h2 : (normalizePhone s).data.take 2 = ['0', '3'] := by
        have := congrArg (List.take 2) h3
        simpa [List.take_take] using this
      exact validatePhone_of_find_hit hlen h2 hpfx (by decide)
  · intro hlen h2 hnone
    have hf : PHONE_PREFIXES.find?
        (fun e => e.2.contains (⟨(normalizePhone s).data.take 3⟩ : String))
          = none := by
      rw [List.find?_eq_none]
      intro e he hc
      exact hnone e he (by simpa using hc)
    simp only [validatePhone]
    rw [if_neg (by simp [hlen]), if_neg (by simp [h2]), hf]

/-- Witness for C2: a recognized MVola number and a structurally valid number
with the unrecognized prefix `030`. -/
theorem validatePhone_prefix_table_witness :
    validatePhone "0341234567" =
      { isValid := true, provider := some .mvola,
        normalizedNumber := some "0341234567" }
    ∧ validatePhone "0301234567" =
      { isValid := false, normalizedNumber := some "0301234567",
        error := some "Préfixe 030 non reconnu" } := by
  constructor
  · have h := (validatePhone_prefix_table "0341234567").1
      (Provider.mvola, ["034", "038"]) (by decide) (by decide) (by decide)
    rw [h]; decide
  · have h := (validatePhone_prefix_table "0301234567").2
      (by decide) (by decide) (by decide)
    rw [h]; decide

/-- Case analysis of `PaidMada.payResolved`: once a provider is resolved, the
call rejects the phone, rejects an unconfigured provider, or delegates. -/
theorem payResolved_cases (configured : List Provider) (request : PaymentRequest)
    (p : Provider) :
    PaidMada.payResolved configured request p =
        .err ((validatePhone request.customerPhone).error.getD
          "Numéro de téléphone invalide") "INVALID_PHONE" none
    ∨ PaidMada.payResolved configured request p =
        .err ("Provider " ++ p.enumValue ++ " non configuré")
          "PROVIDER_NOT_CONFIGURED" (some p)
    ∨ PaidMada.payResolved configured request p =
        .delegate p { request with provider := some p } := by
  cases hv : (validatePhone request.customerPhone).isValid with
  | false => left; simp [PaidMada.payResolved, hv]
  | true =>
    cases hc : configured.contains p with
    | false =>
      right; left
      have hm : p ∉ configured := by simpa using hc
      simp [PaidMada.payResolved, hv, hm]
    | true =>
      right; right
      have hm : p ∈ configured := by simpa using hc
      simp [PaidMada.payResolved, hv, hm]

/-- C3: every `pay` call falls into exactly one of four cases — a
`PROVIDER_DETECTION_FAILED` error when no provider is given and the phone
classifies to no network, an `INVALID_PHONE` error carrying the Classifier's
rejection reason when the phone fails validation, a
`PROVIDER_NOT_CONFIGURED` error when the resolved provider has no bound
adapter, or delegation to the resolved adapter's `initiatePayment`.  In the
embedding the error outcomes are produced by a pure function without any
delegation constructor, so no adapter operation runs and no state changes
in the three error cases. -/
theorem pay_validation_outcomes (configured : List Provider)
    (request : PaymentRequest) :
    (request.provider = none →
      PaidMada.detectProvider request.customerPhone = none →
      PaidMada.pay configured request =
        .err "Impossible de détecter le provider depuis le numéro"
          "PROVIDER_DETECTION_FAILED" none)
    ∧ (∀ p, PaidMada.resolvedProvider request = some p →
      (validatePhone request.customerPhone).isValid = false →
      PaidMada.pay configured request =
        .err ((validatePhone request.customerPhone).error.getD
          "Numéro de téléphone invalide") "INVALID_PHONE" none)
    ∧ (∀ p, PaidMada.resolvedProvider request = some p →
      (validatePhone request.customerPhone).isValid = true →
      configured.contains p = false →
      PaidMada.pay configured request =
        .err ("Provider " ++ p.enumValue ++ " non configuré")
          "PROVIDER_NOT_CONFIGURED" (some p))
    ∧ (∀ p, PaidMada.resolvedProvider request = some p →
      (validatePhone request.customerPhone).isValid = true →
      configured.contains p = true →
      PaidMada.pay configured request =
        .delegate p { request with provider := some p })
    ∧ (PaidMada.pay configured request =
        .err "Impossible de détecter le provider depuis le numéro"
          "PROVIDER_DETECTION_FAILED" none
      ∨ (∃ reason, PaidMada.pay configured request =
          .err reason "INVALID_PHONE" none)
      ∨ (∃ p, PaidMada.pay configured request =
          .err ("Provider " ++ p.enumValue ++ " non configuré")
            "PROVIDER_NOT_CONFIGURED" (some p))
      ∨ (∃ p, PaidMada.pay configured request =
          .delegate p { request with provider := some p })) := by
  refine ⟨?_, ?_, ?_, ?_, ?_⟩
  · intro hp hd
    simp [PaidMada.pay, hp, hd]
  · intro p hres hinvalid
    cases hrp : request.provider with
    | none =>
      simp only [PaidMada.resolvedProvider, hrp] at hres
      simp [PaidMada.pay, hrp, hres, PaidMada.payResolved, hinvalid]
    | some q =>
      simp only [PaidMada.resolvedProvider, hrp, Option.some.injEq] at hres
      subst hres
      simp [PaidMada.pay, hrp, PaidMada.payResolved, hinvalid]
  · intro p hres hvalid hc
    have hm : p ∉ configured := by simpa using hc
    cases hrp : request.provider with
    | none =>
      simp only [PaidMada.resolvedProvider, hrp] at hres
      simp [PaidMada.pay, hrp, hres, PaidMada.payResolved, hvalid, hm]
    | some q =>
      simp only [PaidMada.resolvedProvider, hrp, Option.some.injEq] at hres
      subst hres
      simp [PaidMada.pay, hrp, PaidMada.payResolved, hvalid, hm]
  · intro p hres hvalid hc
    have hm : p ∈ configured := by simpa using hc
    cases hrp : request.provider with
    | none =>
      simp only [PaidMada.resolvedProvider, hrp] at hres
      simp [PaidMada.pay, hrp, hres, PaidMada.payResolved, hvalid, hm]
    | some q =>
      simp only [PaidMada.resolvedProvider, hrp, Option.some.injEq] at hres
      subst hres
      simp [PaidMada.pay, hrp, PaidMada.payResolved, hvalid, hm]
  · cases hrp : request.provider with
    | none =>
      cases hd : PaidMada.detectProvider request.customerPhone with
      | none => left; simp [PaidMada.pay, hrp, hd]
      | some p =>
        have hpay : PaidMada.pay configured request =
            PaidMada.payResolved configured request p := by
          simp [PaidMada.pay, hrp, hd]
        rcases payResolved_cases configured request p with h | h | h
        · right; left; exact ⟨_, by rw [hpay, h]⟩
        · right; right; left; exact ⟨p, by rw [hpay, h]⟩
        · right; right; right; exact ⟨p, by rw [hpay, h]⟩
    | some p =>
      have hpay : PaidMada.pay configured request =
          PaidMada.payResolved configured request p := by
        simp [PaidMada.pay, hrp]
      rcases payResolved_cases configured request p with h | h | h
      · right; left; exact ⟨_, by rw [hpay, h]⟩
      · right; right; left; exact ⟨p, by rw [hpay, h]⟩
      · right; right; right; exact ⟨p, by rw [hpay, h]⟩

/-- Witness for C3: a detection failure on an unparseable phone, an invalid
phone with its preserved reason, an unconfigured provider, and a successful
delegation. -/
theorem pay_validation_outcomes_witness :
    PaidMada.pay [] ⟨none, 1000, none, "12", none, none, [], none⟩ =
      .err "Impossible de détecter le provider depuis le numéro"
        "PROVIDER_DETECTION_FAILED" none
    ∧ PaidMada.pay [] ⟨some .mvola, 1000, none, "12", none, none, [], none⟩ =
      .err "Le numéro doit contenir 10 chiffres" "INVALID_PHONE" none
    ∧ PaidMada.pay [] ⟨some .mvola, 1000, none, "0341234567", none, none, [], none⟩ =
      .err "Provider mvola non configuré" "PROVIDER_NOT_CONFIGURED" (some .mvola)
    ∧ PaidMada.pay [Provider.mvola]
        ⟨none, 1000, none, "0341234567", none, none, [], none⟩ =
      .delegate .mvola ⟨some .mvola, 1000, none, "0341234567", none, none, [], none⟩ := by
  refine ⟨?_, ?_, ?_, ?_⟩
  · exact (pay_validation_outcomes [] _).1 rfl (by decide)
  · have h := (pay_validation_outcomes []
      ⟨some .mvola, 1000, none, "12", none, none, [], none⟩).2.1
        Provider.mvola rfl (by decide)
    rw [h]; decide
  · exact (pay_validation_outcomes []
      ⟨some .mvola, 1000, none, "0341234567", none, none, [], none⟩).2.2.1
        Provider.mvola rfl (by decide) rfl
  · exact (pay_validation_outcomes [Provider.mvola]
      ⟨none, 1000, none, "0341234567", none, none, [], none⟩).2.2.2.1
        Provider.mvola (by decide) (by decide) (by decide)

/-- C9: whenever `pay` delegates, the request handed to the adapter is the
caller's request with only the `provider` field set to the resolved network;
every other field is forwarded unchanged. -/
theorem pay_delegation_preserves_request (configured : List Provider)
    (request : PaymentRequest) (p : Provider) (delegated : PaymentRequest)
    (h : PaidMada.pay configured request = .delegate p delegated) :
    delegated.amount = request.amount
    ∧ delegated.currency = request.currency
    ∧ delegated.customerPhone = request.customerPhone
    ∧ delegated.description = request.description
    ∧ delegated.reference = request.reference
    ∧ delegated.metadata = request.metadata
    ∧ delegated.callbackUrl = request.callbackUrl
    ∧ delegated.provider = some p := by
  have key : delegated = { request with provider := some p } := by
    cases hrp : request.provider with
    | none =>
      cases hd : PaidMada.detectProvider request.customerPhone with
      | none =>
        rw [PaidMada.pay, hrp, hd] at h
        exact PayOutcome.noConfusion h
      | some q =>
        rw [PaidMada.pay, hrp, hd] at h
        simp only [PaidMada.payResolved] at h
        split_ifs at h <;>
          first
            | exact PayOutcome.noConfusion h
            | (obtain ⟨rfl, h2⟩ := PayOutcome.delegate.inj h
               exact h2.symm)
    | some q =>
      rw [PaidMada.pay, hrp] at h
      simp only [PaidMada.payResolved] at h
      split_ifs at h <;>
        first
          | exact PayOutcome.noConfusion h
          | (obtain ⟨rfl, h2⟩ := PayOutcome.delegate.inj h
             exact h2.symm)
  subst key
  exact ⟨rfl, rfl, rfl, rfl, rfl, rfl, rfl, rfl⟩

/-- Witness for C9 at a concrete auto-detected delegation. -/
theorem pay_delegation_preserves_request_witness :
    (⟨some .mvola, 1000, none, "0341234567", none, none, [], none⟩
        : PaymentRequest).amount =
      (⟨none, 1000, none, "0341234567", none, none, [], none⟩
        : PaymentRequest).amount
    ∧ (⟨some .mvola, 1000, none, "0341234567", none, none, [], none⟩
        : PaymentRequest).currency =
      (⟨none, 1000, none, "0341234567", none, none, [], none⟩
        : PaymentRequest).currency
    ∧ (⟨some .mvola, 1000, none, "0341234567", none, none, [], none⟩
        : PaymentRequest).customerPhone =
      (⟨none, 1000, none, "0341234567", none, none, [], none⟩
        : PaymentRequest).customerPhone
    ∧ (⟨some .mvola, 1000, none, "0341234567", none, none, [], none⟩
        : PaymentRequest).description =
      (⟨none, 1000, none, "0341234567", none, none, [], none⟩
        : PaymentRequest).description
    ∧ (⟨some .mvola, 1000, none, "0341234567", none, none, [], none⟩
        : PaymentRequest).reference =
      (⟨none, 1000, none, "0341234567", none, none, [], none⟩
        : PaymentRequest).reference
    ∧ (⟨some .mvola, 1000, none, "0341234567", none, none, [], none⟩
        : PaymentRequest).metadata =
      (⟨none, 1000, none, "0341234567", none, none, [], none⟩
        : PaymentRequest).metadata
    ∧ (⟨some .mvola, 1000, none, "0341234567", none, none, [], none⟩
        : PaymentRequest).callbackUrl =
      (⟨none, 1000, none, "0341234567", none, none, [], none⟩
        : PaymentRequest).callbackUrl
    ∧ (⟨some .mvola, 1000, none, "0341234567", none, none, [], none⟩
        : PaymentRequest).provider = some Provider.mvola :=
  pay_delegation_preserves_request [Provider.mvola]
    ⟨none, 1000, none, "0341234567", none, none, [], none⟩ .mvola
    ⟨some .mvola, 1000, none, "0341234567", none, none, [], none⟩ (by decide)
